import Mathlib

/-!
Shallow embedding of the channel_rides_helper Registration Placement Engine
and Vote Ledger (src/app/db.py, src/app/services/registration.py,
src/app/services/vote_service.py, src/app/handlers/channel_watcher.py,
src/app/handlers/discussion_watcher.py).

The SQLite store is modelled as two lists of rows (posts, votes); every
db.py method becomes a pure function threading the store. Timestamps are
rationals (seconds, fractional). The Telegram gateway is modelled by a
record of fixed per-call outcomes, matching the deterministic oracle the
spec assumes for fallback reasoning.
-/

namespace ChannelRides

/-- Vote status enumeration (src/app/domain/models.py, VoteStatus). -/
inductive VoteStatus
  | join
  | maybe
  | decline
deriving DecidableEq, Repr

/-- Registration mode enumeration (src/app/domain/models.py, RegistrationMode). -/
inductive RegistrationMode
  | editChannel
  | discussionThread
  | channelReplyPost
deriving DecidableEq, Repr

/-- The string stored in the posts.mode column (the .value of the Python enum). -/
def RegistrationMode.value : RegistrationMode → String
  | .editChannel => "edit_channel"
  | .discussionThread => "discussion_thread"
  | .channelReplyPost => "channel_reply_post"

/-- One row of the posts table (db.py _init_schema). -/
structure PostRow where
  channel_id : Int
  channel_message_id : Int
  mode : String
  registration_chat_id : Option Int
  registration_message_id : Option Int
  voters_message_id : Option Int
  discussion_message_id : Option Int
  media_group_id : Option String
  created_at : ℚ
deriving DecidableEq, Repr

/-- One row of the votes table (db.py _init_schema). -/
structure VoteRow where
  channel_id : Int
  channel_message_id : Int
  user_id : Int
  status : VoteStatus
  first_status : VoteStatus
  ever_joined : Bool
  updated_at : ℚ
deriving DecidableEq, Repr

/-- The SQLite store: contents of the two tables. -/
structure Database where
  posts : List PostRow
  votes : List VoteRow
deriving DecidableEq, Repr

/-- WHERE channel_id = ? AND channel_message_id = ? on posts. -/
def post_key_matches (channel_id channel_message_id : Int) (p : PostRow) : Bool :=
  p.channel_id == channel_id && p.channel_message_id == channel_message_id

/-- WHERE channel_id = ? AND channel_message_id = ? AND user_id = ? on votes. -/
def vote_key_matches (channel_id channel_message_id user_id : Int) (v : VoteRow) : Bool :=
  v.channel_id == channel_id && v.channel_message_id == channel_message_id && v.user_id == user_id

/-- Database.get_post (db.py). The UNIQUE(channel_id, channel_message_id)
constraint makes the first match the only match. -/
def get_post (db : Database) (channel_id channel_message_id : Int) : Option PostRow :=
  db.posts.find? (post_key_matches channel_id channel_message_id)

/-- Database.get_post_by_media_group (db.py): SELECT ... WHERE channel_id = ?
AND media_group_id = ? ORDER BY created_at ASC LIMIT 1. -/
def get_post_by_media_group (db : Database) (channel_id : Int) (media_group_id : String) :
    Option PostRow :=
  match db.posts.filter
      (fun p => p.channel_id == channel_id && p.media_group_id == some media_group_id) with
  | [] => none
  | p :: ps => some (ps.foldl (fun acc q => if q.created_at < acc.created_at then q else acc) p)

/-- Database.create_post (db.py): INSERT; an aiosqlite.IntegrityError from the
UNIQUE(channel_id, channel_message_id) constraint is caught and returns False,
leaving the table unchanged. -/
def create_post (db : Database) (channel_id channel_message_id : Int) (mode : String)
    (registration_chat_id registration_message_id : Option Int)
    (media_group_id : Option String) (now : ℚ) : Bool × Database :=
  if (db.posts.find? (post_key_matches channel_id channel_message_id)).isSome then
    (false, db)
  else
    (true, { db with posts := db.posts ++ [{
        channel_id := channel_id,
        channel_message_id := channel_message_id,
        mode := mode,
        registration_chat_id := registration_chat_id,
        registration_message_id := registration_message_id,
        voters_message_id := none,
        discussion_message_id := none,
        media_group_id := media_group_id,
        created_at := now }] })

/-- Database.update_post_registration (db.py): UPDATE posts SET
registration_chat_id, registration_message_id WHERE key; a no-op when no row
matches. -/
def update_post_registration (db : Database)
    (channel_id channel_message_id reg_chat_id reg_message_id : Int) : Database :=
  { db with posts := db.posts.map fun p =>
      if post_key_matches channel_id channel_message_id p then
        { p with registration_chat_id := some reg_chat_id,
                 registration_message_id := some reg_message_id }
      else p }

/-- Database.update_discussion_message_id (db.py): UPDATE posts SET
discussion_message_id WHERE key; a no-op when no row matches. -/
def update_discussion_message_id (db : Database)
    (channel_id channel_message_id discussion_message_id : Int) : Database :=
  { db with posts := db.posts.map fun p =>
      if post_key_matches channel_id channel_message_id p then
        { p with discussion_message_id := some discussion_message_id }
      else p }

/-- The SELECT at the top of Database.upsert_vote (db.py). -/
def get_vote (db : Database) (channel_id channel_message_id user_id : Int) : Option VoteRow :=
  db.votes.find? (vote_key_matches channel_id channel_message_id user_id)

/-- Database.upsert_vote (db.py): read the existing row; if present, UPDATE
status, ever_joined := old.ever_joined OR (status = join), updated_at := now
(first_status untouched); otherwise INSERT with first_status = status and
ever_joined = (status = join). -/
def upsert_vote (db : Database) (channel_id channel_message_id user_id : Int)
    (status : VoteStatus) (now : ℚ) : Database :=
  match db.votes.find? (vote_key_matches channel_id channel_message_id user_id) with
  | some existing =>
    let ever_joined := existing.ever_joined || (status == .join)
    { db with votes := db.votes.map fun v =>
        if vote_key_matches channel_id channel_message_id user_id v then
          { v with status := status, ever_joined := ever_joined, updated_at := now }
        else v }
  | none =>
    { db with votes := db.votes ++ [{
        channel_id := channel_id,
        channel_message_id := channel_message_id,
        user_id := user_id,
        status := status,
        first_status := status,
        ever_joined := status == .join,
        updated_at := now }] }

/-- Result shape of Database.get_vote_counts (db.py): the per-status counts
dictionary, initialised to zero for all three statuses. -/
structure StatusCounts where
  join : Nat
  maybe : Nat
  decline : Nat
deriving DecidableEq, Repr

/-- Database.get_vote_counts (db.py): SELECT status, COUNT(*) GROUP BY status
over the rows of one post. -/
def get_vote_counts (db : Database) (channel_id channel_message_id : Int) : StatusCounts :=
  let rows := db.votes.filter fun v =>
    v.channel_id == channel_id && v.channel_message_id == channel_message_id
  { join := (rows.filter fun v => v.status == .join).length,
    maybe := (rows.filter fun v => v.status == .maybe).length,
    decline := (rows.filter fun v => v.status == .decline).length }

/-- Database.get_changed_mind_count (db.py): COUNT(*) WHERE key AND
ever_joined = 1 AND status != join. -/
def get_changed_mind_count (db : Database) (channel_id channel_message_id : Int) : Nat :=
  (db.votes.filter fun v =>
    v.channel_id == channel_id && v.channel_message_id == channel_message_id
      && v.ever_joined && v.status != .join).length

/-- Database.get_last_vote_time (db.py): the updated_at of the row of the user. -/
def get_last_vote_time (db : Database) (channel_id channel_message_id user_id : Int) :
    Option ℚ :=
  (db.votes.find? (vote_key_matches channel_id channel_message_id user_id)).map
    (fun v => v.updated_at)

/-- Python truthiness of an optional integer column or config value: None and 0
are both falsy (the code tests these with plain `if not x`). -/
def isTruthy : Option Int → Bool
  | none => false
  | some n => n != 0

/-- Configuration fields consumed by the modelled components (src/app/config.py).
registration_mode is validated at startup against the three mode strings, so it
is carried here already parsed into the enum. -/
structure Config where
  rides_channel_id : Int
  discussion_group_id : Option Int
  registration_mode : RegistrationMode
deriving DecidableEq, Repr

/-- The Messaging Gateway with fixed per-call outcomes: a Bool for whether an
edit succeeds, and for each kind of send the message_id of the sent message, or
none when the send raises TelegramAPIError. -/
structure Gateway where
  edit_message_ok : Bool
  send_discussion_reply : Option Int
  send_channel_reply : Option Int
  send_channel_plain : Option Int
  edit_card_ok : Bool
deriving DecidableEq, Repr

/-- RegistrationService._try_edit_channel (registration.py): edit the source
message in place; on success the card location is the source location. -/
def try_edit_channel (gw : Gateway) (channel_id message_id : Int) : Option (Int × Int) :=
  if gw.edit_message_ok then some (channel_id, message_id) else none

/-- RegistrationService._try_discussion_thread (registration.py): fails when no
discussion group is configured, or when the stored post carries no (truthy)
discussion_message_id mapping; otherwise sends a reply in the discussion group. -/
def try_discussion_thread (cfg : Config) (gw : Gateway) (db : Database)
    (channel_id message_id : Int) : Option (Int × Int) :=
  if !(isTruthy cfg.discussion_group_id) then none
  else
    match cfg.discussion_group_id with
    | none => none
    | some gid =>
      let discussion_message_id := (get_post db channel_id message_id).bind
        (fun p => p.discussion_message_id)
      if !(isTruthy discussion_message_id) then none
      else
        match gw.send_discussion_reply with
        | some sent_id => some (gid, sent_id)
        | none => none

/-- RegistrationService._try_channel_reply (registration.py): reply in the
channel; if the reply is rejected, retry as a plain message with a link button. -/
def try_channel_reply (gw : Gateway) (channel_id message_id : Int) : Option (Int × Int) :=
  match gw.send_channel_reply with
  | some sent_id => some (channel_id, sent_id)
  | none =>
    match gw.send_channel_plain with
    | some sent_id => some (channel_id, sent_id)
    | none => none

/-- The mode dispatch inside the create_registration fallback loop. The source
message id is unused by try_channel_reply only through the reply target. -/
def attempt_mode (cfg : Config) (gw : Gateway) (db : Database)
    (channel_id message_id : Int) : RegistrationMode → Option (Int × Int)
  | .editChannel => try_edit_channel gw channel_id message_id
  | .discussionThread => try_discussion_thread cfg gw db channel_id message_id
  | .channelReplyPost => try_channel_reply gw channel_id message_id

/-- RegistrationService._get_fallback_chain (registration.py): rotate the fixed
list of all modes to start at the configured mode. -/
def get_fallback_chain (config_mode : RegistrationMode) : List RegistrationMode :=
  let all_modes : List RegistrationMode :=
    [.editChannel, .discussionThread, .channelReplyPost]
  let start_index := all_modes.indexOf config_mode
  all_modes.drop start_index ++ all_modes.take start_index

/-- The three distinguishable return paths of create_registration: success after
some mode (returns True), duplicate detected up front (returns False before any
attempt), and exhaustion of the chain (returns False after the loop). -/
inductive CreateResult
  | created (mode : RegistrationMode)
  | alreadyExists
  | allModesFailed
deriving DecidableEq, Repr

/-- Outcome of one create_registration call: the return path, the store after
the call, and the placement modes attempted against the gateway, in order. -/
structure CreateOutcome where
  result : CreateResult
  db : Database
  attempted : List RegistrationMode
deriving DecidableEq, Repr

/-- The album guard in create_registration and handle_channel_post: the
media_group_id is truthy and a post for it already exists in this channel. -/
def album_already_registered (db : Database) (channel_id : Int) :
    Option String → Bool
  | none => false
  | some g => g != "" && (get_post_by_media_group db channel_id g).isSome

/-- The for-loop over the fallback chain in create_registration: each mode is
attempted once; the first success stores the post (create_post) and returns;
an exhausted list returns the all-modes-failed path. -/
def create_registration_go (cfg : Config) (gw : Gateway) (db : Database)
    (channel_id message_id : Int) (media_group_id : Option String) (now : ℚ) :
    List RegistrationMode → CreateOutcome
  | [] => ⟨.allModesFailed, db, []⟩
  | mode :: rest =>
    match attempt_mode cfg gw db channel_id message_id mode with
    | some loc =>
      ⟨.created mode,
       (create_post db channel_id message_id mode.value (some loc.1) (some loc.2)
         media_group_id now).2,
       [mode]⟩
    | none =>
      let o := create_registration_go cfg gw db channel_id message_id media_group_id now rest
      ⟨o.result, o.db, mode :: o.attempted⟩

/-- RegistrationService.create_registration (registration.py): return early when
a post (or album post) already exists, otherwise walk the fallback chain. -/
def create_registration (cfg : Config) (gw : Gateway) (db : Database)
    (channel_id message_id : Int) (media_group_id : Option String) (now : ℚ) :
    CreateOutcome :=
  if (get_post db channel_id message_id).isSome then ⟨.alreadyExists, db, []⟩
  else if album_already_registered db channel_id media_group_id then ⟨.alreadyExists, db, []⟩
  else create_registration_go cfg gw db channel_id message_id media_group_id now
    (get_fallback_chain cfg.registration_mode)

/-- RegistrationService.complete_discussion_registration (registration.py):
re-attempt the discussion_thread mode only; on success record the card location
with update_post_registration (an UPDATE, never an insert). -/
def complete_discussion_registration (cfg : Config) (gw : Gateway) (db : Database)
    (channel_id message_id : Int) : Bool × Database :=
  match try_discussion_thread cfg gw db channel_id message_id with
  | some loc =>
    (true, update_post_registration db channel_id message_id loc.1 loc.2)
  | none => (false, db)

/-- RegistrationService._repair_post_registration (registration.py): only
edit_channel posts are repairable (card location := source location); the two
other modes and unknown modes fail without touching the store. -/
def repair_post_registration (db : Database) (channel_id message_id : Int)
    (mode : String) : Bool × Database :=
  if mode == "edit_channel" then
    (true, update_post_registration db channel_id message_id channel_id message_id)
  else if mode == "discussion_thread" then (false, db)
  else if mode == "channel_reply_post" then (false, db)
  else (false, db)

/-- The four distinguishable return paths of update_registration: post absent,
card location missing and unrepairable, gateway edit rejected, success. -/
inductive RenderResult
  | updated
  | notFound
  | missingLocation
  | gatewayFailure
deriving DecidableEq, Repr

/-- RegistrationService.update_registration (registration.py): load the post;
repair a missing (falsy) card location when possible; then edit the card via
the gateway. -/
def update_registration (gw : Gateway) (db : Database)
    (channel_id message_id : Int) : RenderResult × Database :=
  match get_post db channel_id message_id with
  | none => (.notFound, db)
  | some post =>
    if !(isTruthy post.registration_chat_id) || !(isTruthy post.registration_message_id) then
      match repair_post_registration db channel_id message_id post.mode with
      | (false, db1) => (.missingLocation, db1)
      | (true, db1) =>
        match get_post db1 channel_id message_id with
        | none => (.missingLocation, db1)
        | some post1 =>
          if !(isTruthy post1.registration_chat_id)
              || !(isTruthy post1.registration_message_id) then
            (.missingLocation, db1)
          else if gw.edit_card_ok then (.updated, db1) else (.gatewayFailure, db1)
    else if gw.edit_card_ok then (.updated, db) else (.gatewayFailure, db)

/-- VoteService._check_rate_limit (vote_service.py): some remaining seconds when
the user voted less than vote_cooldown seconds ago (the RateLimitError raise),
none otherwise. -/
def check_rate_limit (vote_cooldown : ℚ) (db : Database)
    (channel_id message_id user_id : Int) (now : ℚ) : Option ℚ :=
  match get_last_vote_time db channel_id message_id user_id with
  | none => none
  | some last_vote =>
    let time_since_last := now - last_vote
    if time_since_last < vote_cooldown then some (vote_cooldown - time_since_last)
    else none

/-- VoteService.cast_vote (vote_service.py): the rate-limit check runs only for
a positive cooldown; a RateLimitError carries the remaining seconds, otherwise
the vote is upserted. -/
def cast_vote (vote_cooldown : ℚ) (db : Database)
    (channel_id message_id user_id : Int) (status : VoteStatus) (now : ℚ) :
    Except ℚ Database :=
  if vote_cooldown > 0 then
    match check_rate_limit vote_cooldown db channel_id message_id user_id now with
    | some remaining => .error remaining
    | none => .ok (upsert_vote db channel_id message_id user_id status now)
  else .ok (upsert_vote db channel_id message_id user_id status now)

/-- handle_channel_post (channel_watcher.py), for a message that passed the
content filter: dedupe albums, then either insert a pending discussion_thread
post (no gateway attempts) or run create_registration. The returned list is
the placement modes attempted against the gateway. -/
def handle_channel_post (cfg : Config) (gw : Gateway) (db : Database)
    (channel_id message_id : Int) (media_group_id : Option String) (now : ℚ) :
    Database × List RegistrationMode :=
  if album_already_registered db channel_id media_group_id then (db, [])
  else if cfg.registration_mode == .discussionThread then
    ((create_post db channel_id message_id "discussion_thread" none none
        media_group_id now).2, [])
  else
    let o := create_registration cfg gw db channel_id message_id media_group_id now
    (o.db, o.attempted)

/-- handle_discussion_message (discussion_watcher.py): for a message forwarded
from the rides channel, store the mapping via update_discussion_message_id,
then complete a pending discussion_thread post when one is waiting. -/
def handle_discussion_message (cfg : Config) (gw : Gateway) (db : Database)
    (forward_from_chat_id forward_from_message_id : Option Int)
    (message_id : Int) : Database :=
  match forward_from_chat_id, forward_from_message_id with
  | some fc, some fm =>
    if fc == cfg.rides_channel_id && fm != 0 then
      let db1 := update_discussion_message_id db cfg.rides_channel_id fm message_id
      match get_post db1 cfg.rides_channel_id fm with
      | some post =>
        if post.mode == "discussion_thread" && !(isTruthy post.registration_message_id) then
          (complete_discussion_registration cfg gw db1 cfg.rides_channel_id fm).2
        else db1
      | none => db1
    else db
  | _, _ => db

/-- A whole castVote session by one user on one post: the upserts applied in
order, each with its timestamp. -/
def apply_votes (db : Database) (channel_id channel_message_id user_id : Int)
    (casts : List (VoteStatus × ℚ)) : Database :=
  casts.foldl
    (fun d cast => upsert_vote d channel_id channel_message_id user_id cast.1 cast.2) db

/-- The ever_joined column of the stored row for a key, read as false when the
row does not exist yet. -/
def ever_joined_of (db : Database) (channel_id channel_message_id user_id : Int) : Bool :=
  ((get_vote db channel_id channel_message_id user_id).map (fun v => v.ever_joined)).getD false

/-- Modelled from the spec: the cyclic successor on the fixed three-mode
rotation over EditOriginal, DiscussionReply, ChannelReply. -/
def next_in_cycle : RegistrationMode → RegistrationMode
  | .editChannel => .discussionThread
  | .discussionThread => .channelReplyPost
  | .channelReplyPost => .editChannel

/-- Modelled from the spec: the fallback order is always
[preferred, next-in-cycle, next-in-cycle]. Stated for comparison with the
_get_fallback_chain rotation computed by the source. -/
def spec_fallback_chain (preferred : RegistrationMode) : List RegistrationMode :=
  [preferred, next_in_cycle preferred, next_in_cycle (next_in_cycle preferred)]

/-! ### Shared list lemmas for the row-update and row-insert patterns -/

/-- A SQL UPDATE on the rows matching a key, when the key fields are preserved,
rewrites the first key match pointwise: the post-update lookup is the
pre-update lookup with the update applied. -/
theorem find_map_key_update {α : Type} (k : α → Bool) (g : α → α)
    (hk : ∀ x, k x = true → k (g x) = true) :
    ∀ l : List α, (l.map fun x => if k x then g x else x).find? k = (l.find? k).map g := by
  intro l
  induction l with
  | nil => rfl
  | cons a t ih =>
    by_cases ha : k a = true
    · simp [List.find?, ha, hk a ha]
    · simp only [Bool.not_eq_true] at ha
      simp [List.find?, ha, ih]

/-- A lookup that misses the first list continues in the second. -/
theorem find_append_of_none {α : Type} (p : α → Bool) (l₁ l₂ : List α)
    (h : l₁.find? p = none) : (l₁ ++ l₂).find? p = l₂.find? p := by
  induction l₁ with
  | nil => rfl
  | cons a t ih =>
    cases hpa : p a with
    | true =>
      rw [List.find?_cons_of_pos _ hpa] at h
      exact absurd h (by simp)
    | false =>
      rw [List.find?_cons_of_neg _ (by simp [hpa])] at h
      rw [List.cons_append, List.find?_cons_of_neg _ (by simp [hpa])]
      exact ih h

/-- A SQL UPDATE whose WHERE clause matches no row leaves the table unchanged. -/
theorem map_update_id {α : Type} (k : α → Bool) (g : α → α) (l : List α)
    (h : ∀ x ∈ l, k x = false) :
    (l.map fun x => if k x then g x else x) = l := by
  induction l with
  | nil => rfl
  | cons a t ih =>
    have ha := h a (by simp)
    rw [List.map_cons, if_neg (by simp [ha]), ih fun x hx => h x (by simp [hx])]

/-! ### Behaviour of upsert_vote on the key being written -/

/-- The vote-key test preserved by the upsert_vote UPDATE payload. -/
theorem vote_key_matches_update (c m u : Int) (s : VoteStatus) (e : Bool) (t : ℚ) :
    ∀ v, vote_key_matches c m u v = true →
      vote_key_matches c m u
        { v with status := s, ever_joined := e, updated_at := t } = true := by
  intro v hv
  simpa [vote_key_matches] using hv

/-- After upsert_vote, the row for the written key exists, carries the written
status and timestamp, and its ever_joined equals the old ever_joined (false
when the row is new) OR-ed with whether the written status is join. -/
theorem get_vote_upsert (db : Database) (c m u : Int) (s : VoteStatus) (t : ℚ) :
    get_vote (upsert_vote db c m u s t) c m u =
      some { channel_id := c, channel_message_id := m, user_id := u,
             status := s,
             first_status := ((get_vote db c m u).map (fun v => v.first_status)).getD s,
             ever_joined :=
               (((get_vote db c m u).map (fun v => v.ever_joined)).getD false
                 || (s == .join)),
             updated_at := t } := by
  unfold get_vote upsert_vote
  cases hfind : db.votes.find? (vote_key_matches c m u) with
  | some existing =>
    simp only [hfind]
    have hres := find_map_key_update (vote_key_matches c m u)
      (fun v => { v with status := s,
                         ever_joined := existing.ever_joined || (s == .join),
                         updated_at := t })
      (vote_key_matches_update c m u s (existing.ever_joined || (s == .join)) t)
      db.votes
    simp only [hfind, Option.map_some] at hres
    simp only [hres]
    have hkey : vote_key_matches c m u existing = true := List.find?_some hfind
    simp only [vote_key_matches, Bool.and_eq_true, beq_iff_eq] at hkey
    obtain ⟨⟨h1, h2⟩, h3⟩ := hkey
    cases existing
    simp_all
  | none =>
    simp only [hfind]
    have happ := find_append_of_none (vote_key_matches c m u) db.votes
      [{ channel_id := c, channel_message_id := m, user_id := u,
         status := s, first_status := s, ever_joined := (s == .join), updated_at := t }]
      hfind
    simp only [happ]
    simp [List.find?, vote_key_matches]

/-- A lookup by a predicate that every row fails misses. -/
theorem find_none_of_keys_false {α : Type} (p : α → Bool) (l : List α)
    (h : ∀ x ∈ l, p x = false) : l.find? p = none :=
  List.find?_eq_none.mpr fun x hx => by simp [h x hx]

/-- One upsert ORs the join flag into ever_joined, in both the insert and the
update branch of upsert_vote. -/
theorem ever_joined_of_upsert (db : Database) (c m u : Int) (s : VoteStatus) (t : ℚ) :
    ever_joined_of (upsert_vote db c m u s t) c m u =
      (ever_joined_of db c m u || (s == .join)) := by
  unfold ever_joined_of
  rw [get_vote_upsert]
  rfl

/-- Monotonicity pushed through a whole cast list. -/
theorem ever_joined_monotone_list (c m u : Int) :
    ∀ (casts : List (VoteStatus × ℚ)) (db : Database),
      ever_joined_of db c m u = true →
      ever_joined_of (apply_votes db c m u casts) c m u = true := by
  intro casts
  induction casts with
  | nil => intro db h; exact h
  | cons cast rest ih =>
    intro db h
    have hstep : ever_joined_of (upsert_vote db c m u cast.1 cast.2) c m u = true := by
      rw [ever_joined_of_upsert, h, Bool.true_or]
    exact ih (upsert_vote db c m u cast.1 cast.2) hstep

/-- C1: over any sequence of castVote upserts by one user on one
(channel_id, message_id), ever_joined is monotonic non-decreasing — once true
it stays true over any further casts — and a cast with status join (in
particular the first one) sets it. -/
theorem upsert_vote_ever_joined_monotone (db : Database) (c m u : Int)
    (casts rest : List (VoteStatus × ℚ)) (t : ℚ) :
    (ever_joined_of db c m u = true →
      ever_joined_of (apply_votes db c m u casts) c m u = true)
    ∧ ever_joined_of (apply_votes db c m u ((VoteStatus.join, t) :: rest)) c m u = true := by
  refine ⟨ever_joined_monotone_list c m u casts db, ?_⟩
  show ever_joined_of (apply_votes (upsert_vote db c m u .join t) c m u rest) c m u = true
  exact ever_joined_monotone_list c m u rest _
    (by rw [ever_joined_of_upsert]; simp)

/-- Witness for C1 at concrete inputs: a stored row with ever_joined true keeps
it true across a decline cast, and a fresh join-then-maybe session has it true. -/
theorem upsert_vote_ever_joined_monotone_witness :
    ever_joined_of
        ⟨[], [{ channel_id := -100, channel_message_id := 50, user_id := 7,
                status := .maybe, first_status := .join, ever_joined := true,
                updated_at := 0 }]⟩ (-100) 50 7 = true
    ∧ ever_joined_of
        (apply_votes
          ⟨[], [{ channel_id := -100, channel_message_id := 50, user_id := 7,
                  status := .maybe, first_status := .join, ever_joined := true,
                  updated_at := 0 }]⟩ (-100) 50 7 [(.decline, 5)]) (-100) 50 7 = true
    ∧ ever_joined_of
        (apply_votes ⟨[], []⟩ (-100) 50 7 ((VoteStatus.join, 0) :: [(.maybe, 1)]))
        (-100) 50 7 = true := by
  refine ⟨by decide, ?_, ?_⟩
  · exact (upsert_vote_ever_joined_monotone
      ⟨[], [{ channel_id := -100, channel_message_id := 50, user_id := 7,
              status := .maybe, first_status := .join, ever_joined := true,
              updated_at := 0 }]⟩ (-100) 50 7 [(.decline, 5)] [] 0).1 (by decide)
  · exact (upsert_vote_ever_joined_monotone ⟨[], []⟩ (-100) 50 7 [] [(.maybe, 1)] 0).2

/-! ### Rate limiting (C4) -/

/-- After an upsert the last-vote timestamp for the key is the upsert time. -/
theorem get_last_vote_time_upsert (db : Database) (c m u : Int) (s : VoteStatus) (t : ℚ) :
    get_last_vote_time (upsert_vote db c m u s t) c m u = some t := by
  have h := get_vote_upsert db c m u s t
  unfold get_vote at h
  unfold get_last_vote_time
  rw [h]
  rfl

/-- C4: with a positive cooldown, a second cast by the same user on the same
post strictly within cooldown seconds of the recorded vote fails with
RateLimited carrying remaining seconds in (0, cooldown]; a cast at or after
the cooldown boundary is recorded. -/
theorem cast_vote_rate_limit (cooldown : ℚ) (db : Database) (c m u : Int)
    (s1 s2 : VoteStatus) (t1 t2 : ℚ)
    (hcool : 0 < cooldown) (horder : t1 ≤ t2) :
    (t2 - t1 < cooldown →
      cast_vote cooldown (upsert_vote db c m u s1 t1) c m u s2 t2
          = .error (cooldown - (t2 - t1))
        ∧ 0 < cooldown - (t2 - t1) ∧ cooldown - (t2 - t1) ≤ cooldown)
    ∧ (cooldown ≤ t2 - t1 →
      cast_vote cooldown (upsert_vote db c m u s1 t1) c m u s2 t2
        = .ok (upsert_vote (upsert_vote db c m u s1 t1) c m u s2 t2)) := by
  constructor
  · intro hlt
    refine ⟨?_, by linarith, by linarith⟩
    unfold cast_vote check_rate_limit
    rw [get_last_vote_time_upsert]
    simp [hcool, hlt]
  · intro hge
    unfold cast_vote check_rate_limit
    rw [get_last_vote_time_upsert]
    simp [hcool, not_lt.mpr hge]

/-- Witness for C4 at cooldown 5: a recast 3 seconds later is rejected with 2
seconds remaining, a recast 9 seconds later is recorded. -/
theorem cast_vote_rate_limit_witness :
    (cast_vote 5 (upsert_vote ⟨[], []⟩ (-100) 50 7 .join 0) (-100) 50 7 .maybe 3
        = .error (5 - (3 - 0))
      ∧ 0 < (5 : ℚ) - (3 - 0) ∧ (5 : ℚ) - (3 - 0) ≤ 5)
    ∧ cast_vote 5 (upsert_vote ⟨[], []⟩ (-100) 50 7 .join 0) (-100) 50 7 .maybe 9
        = .ok (upsert_vote (upsert_vote ⟨[], []⟩ (-100) 50 7 .join 0) (-100) 50 7 .maybe 9) :=
  ⟨(cast_vote_rate_limit 5 ⟨[], []⟩ (-100) 50 7 .join .maybe 0 3
      (by decide) (by decide)).1 (by simp; decide),
   (cast_vote_rate_limit 5 ⟨[], []⟩ (-100) 50 7 .join .maybe 0 9
      (by decide) (by decide)).2 (by simp; decide)⟩

/-! ### The create_registration fallback loop (C5, C2, C8) -/

/-- The modes the loop attempts: all failing modes up to and including the
first succeeding one, or the whole list when every mode fails. -/
theorem create_registration_go_attempted (cfg : Config) (gw : Gateway) (db : Database)
    (c m : Int) (mg : Option String) (now : ℚ) :
    ∀ ms : List RegistrationMode,
      (create_registration_go cfg gw db c m mg now ms).attempted =
        ms.takeWhile (fun mo => (attempt_mode cfg gw db c m mo).isNone)
          ++ (ms.dropWhile (fun mo => (attempt_mode cfg gw db c m mo).isNone)).take 1 := by
  intro ms
  induction ms with
  | nil => rfl
  | cons mo rest ih =>
    cases h : attempt_mode cfg gw db c m mo with
    | some loc =>
      simp [create_registration_go, h, List.takeWhile_cons, List.dropWhile_cons]
    | none =>
      simp [create_registration_go, h, List.takeWhile_cons, List.dropWhile_cons, ih]

/-- The loop reports success with mode w exactly when w is the first mode in
the list whose attempt succeeds. -/
theorem create_registration_go_result (cfg : Config) (gw : Gateway) (db : Database)
    (c m : Int) (mg : Option String) (now : ℚ) :
    ∀ (ms : List RegistrationMode) (w : RegistrationMode),
      ((create_registration_go cfg gw db c m mg now ms).result = .created w ↔
        ms.find? (fun mo => (attempt_mode cfg gw db c m mo).isSome) = some w) := by
  intro ms
  induction ms with
  | nil => intro w; simp [create_registration_go]
  | cons mo rest ih =>
    intro w
    cases h : attempt_mode cfg gw db c m mo with
    | some loc =>
      simp [create_registration_go, h, List.find?_cons_of_pos, CreateResult.created.injEq,
        eq_comm]
    | none =>
      rw [List.find?_cons_of_neg _ (by simp [h])]
      simpa [create_registration_go, h] using ih w

/-- When every mode in the list fails, the loop returns the all-modes-failed
path with the store untouched, having attempted the whole list. -/
theorem create_registration_go_all_fail (cfg : Config) (gw : Gateway) (db : Database)
    (c m : Int) (mg : Option String) (now : ℚ) :
    ∀ ms : List RegistrationMode,
      (∀ mo ∈ ms, attempt_mode cfg gw db c m mo = none) →
      create_registration_go cfg gw db c m mg now ms = ⟨.allModesFailed, db, ms⟩ := by
  intro ms
  induction ms with
  | nil => intro _; rfl
  | cons mo rest ih =>
    intro h
    have hmo := h mo (by simp)
    have hrest := ih fun x hx => h x (by simp [hx])
    simp [create_registration_go, hmo, hrest]

/-- When no row for the key exists, an appended row matching the key becomes
the lookup result. -/
theorem get_post_insert (db : Database) (c m : Int) (row : PostRow)
    (hpre : get_post db c m = none) (hrow : post_key_matches c m row = true) :
    get_post { db with posts := db.posts ++ [row] } c m = some row := by
  unfold get_post at hpre ⊢
  rw [find_append_of_none _ _ _ hpre]
  simp [List.find?, hrow]

/-- On success with winning mode w the loop persists, via create_post, exactly
one new row carrying mode w.value and the card location the attempt returned. -/
theorem create_registration_go_success_db (cfg : Config) (gw : Gateway) (db : Database)
    (c m : Int) (mg : Option String) (now : ℚ)
    (hpre : get_post db c m = none) :
    ∀ (ms : List RegistrationMode) (w : RegistrationMode),
      (create_registration_go cfg gw db c m mg now ms).result = .created w →
      ∃ rc rm, attempt_mode cfg gw db c m w = some (rc, rm) ∧
        (create_registration_go cfg gw db c m mg now ms).db =
          { db with posts := db.posts ++ [{
              channel_id := c, channel_message_id := m, mode := w.value,
              registration_chat_id := some rc, registration_message_id := some rm,
              voters_message_id := none, discussion_message_id := none,
              media_group_id := mg, created_at := now }] } := by
  intro ms
  induction ms with
  | nil => intro w hw; simp [create_registration_go] at hw
  | cons mo rest ih =>
    intro w hw
    cases h : attempt_mode cfg gw db c m mo with
    | some loc =>
      have hw' : mo = w := by
        simpa [create_registration_go, h] using hw
      subst hw'
      refine ⟨loc.1, loc.2, by simpa using h, ?_⟩
      have hins : (db.posts.find? (post_key_matches c m)).isSome = false := by
        unfold get_post at hpre
        simp [hpre]
      simp [create_registration_go, h, create_post, hins]
    | none =>
      have hw' : (create_registration_go cfg gw db c m mg now rest).result = .created w := by
        simpa [create_registration_go, h] using hw
      obtain ⟨rc, rm, hat, hdb⟩ := ih w hw'
      exact ⟨rc, rm, hat, by simpa [create_registration_go, h] using hdb⟩

/-- C5: the fallback chain computed by _get_fallback_chain is exactly the
three-mode rotation [preferred, next-in-cycle, next-in-cycle] with no repeats;
create_registration attempts modes in exactly that order, stopping at the
first success, and the winning mode is the one persisted in the Post row. The
whole behaviour is a function of the configuration and the per-mode outcomes,
hence deterministic. -/
theorem fallback_chain_deterministic (cfg : Config) (gw : Gateway) (db : Database)
    (c m : Int) (mg : Option String) (now : ℚ) :
    get_fallback_chain cfg.registration_mode = spec_fallback_chain cfg.registration_mode
    ∧ (get_fallback_chain cfg.registration_mode).Nodup
    ∧ (get_post db c m = none → album_already_registered db c mg = false →
        ((create_registration cfg gw db c m mg now).attempted =
            (get_fallback_chain cfg.registration_mode).takeWhile
              (fun mo => (attempt_mode cfg gw db c m mo).isNone)
            ++ ((get_fallback_chain cfg.registration_mode).dropWhile
              (fun mo => (attempt_mode cfg gw db c m mo).isNone)).take 1)
        ∧ (∀ w, (create_registration cfg gw db c m mg now).result = .created w ↔
            (get_fallback_chain cfg.registration_mode).find?
              (fun mo => (attempt_mode cfg gw db c m mo).isSome) = some w)
        ∧ (∀ w, (create_registration cfg gw db c m mg now).result = .created w →
            ∃ p, get_post (create_registration cfg gw db c m mg now).db c m = some p
              ∧ p.mode = w.value)) := by
  refine ⟨?_, ?_, ?_⟩
  · cases cfg.registration_mode <;> rfl
  · cases cfg.registration_mode <;> decide
  · intro h1 h2
    have hcr : create_registration cfg gw db c m mg now =
        create_registration_go cfg gw db c m mg now
          (get_fallback_chain cfg.registration_mode) := by
      simp [create_registration, h1, h2]
    refine ⟨?_, ?_, ?_⟩
    · rw [hcr]; exact create_registration_go_attempted cfg gw db c m mg now _
    · intro w; rw [hcr]; exact create_registration_go_result cfg gw db c m mg now _ w
    · intro w hw
      rw [hcr] at hw ⊢
      obtain ⟨rc, rm, _, hdb⟩ :=
        create_registration_go_success_db cfg gw db c m mg now h1 _ w hw
      rw [hdb]
      exact ⟨_, get_post_insert db c m _ h1 (by simp [post_key_matches]), rfl⟩

/-- The early-return branch of create_registration for an existing Post. -/
theorem create_registration_already (cfg : Config) (gw : Gateway) (X : Database)
    (c m : Int) (mg : Option String) (now : ℚ)
    (h : (get_post X c m).isSome) :
    create_registration cfg gw X c m mg now = ⟨.alreadyExists, X, []⟩ := by
  simp [create_registration, h]

/-- C2: when a Post for the key (or the album) already exists,
create_registration returns the already-exists path with the store unchanged
and no gateway attempts; after a successful create, a second identical call
returns already-exists, changes nothing, attempts nothing, and exactly one
Post row for the key is persisted. -/
theorem create_registration_idempotent (cfg : Config) (gw : Gateway) (db : Database)
    (c m : Int) (mg : Option String) (now now2 : ℚ) :
    ((get_post db c m).isSome →
        create_registration cfg gw db c m mg now = ⟨.alreadyExists, db, []⟩)
    ∧ (album_already_registered db c mg = true →
        create_registration cfg gw db c m mg now = ⟨.alreadyExists, db, []⟩)
    ∧ (∀ w, (create_registration cfg gw db c m mg now).result = .created w →
        create_registration cfg gw (create_registration cfg gw db c m mg now).db c m mg now2
            = ⟨.alreadyExists, (create_registration cfg gw db c m mg now).db, []⟩
          ∧ (create_registration cfg gw db c m mg now).db.posts.countP
              (post_key_matches c m) = 1) := by
  refine ⟨?_, ?_, ?_⟩
  · intro h; simp [create_registration, h]
  · intro h
    cases hs : (get_post db c m).isSome
    · simp [create_registration, hs, h]
    · simp [create_registration, hs]
  · intro w hw
    have h1 : get_post db c m = none := by
      by_contra hne
      have hs : (get_post db c m).isSome = true := by
        cases hg : get_post db c m
        · exact absurd hg hne
        · simp
      simp [create_registration, hs] at hw
    have h2 : album_already_registered db c mg = false := by
      by_contra hne
      have ht : album_already_registered db c mg = true := by
        cases hh : album_already_registered db c mg
        · exact absurd hh hne
        · rfl
      simp [create_registration, h1, ht] at hw
    have hcr : create_registration cfg gw db c m mg now =
        create_registration_go cfg gw db c m mg now
          (get_fallback_chain cfg.registration_mode) := by
      simp [create_registration, h1, h2]
    rw [hcr] at hw
    obtain ⟨rc, rm, _, hdb⟩ :=
      create_registration_go_success_db cfg gw db c m mg now h1 _ w hw
    have hrow : post_key_matches c m
        ({ channel_id := c, channel_message_id := m, mode := w.value,
           registration_chat_id := some rc, registration_message_id := some rm,
           voters_message_id := none, discussion_message_id := none,
           media_group_id := mg, created_at := now } : PostRow) = true := by
      simp [post_key_matches]
    have hpost : get_post (create_registration cfg gw db c m mg now).db c m ≠ none := by
      rw [hcr, hdb]
      rw [get_post_insert db c m _ h1 hrow]
      simp
    constructor
    · have hs : (get_post (create_registration cfg gw db c m mg now).db c m).isSome = true := by
        cases hg : get_post (create_registration cfg gw db c m mg now).db c m
        · exact absurd hg hpost
        · simp
      exact create_registration_already cfg gw _ c m mg now2 hs
    · rw [hcr, hdb]
      have hzero : db.posts.countP (post_key_matches c m) = 0 := by
        rw [List.countP_eq_zero]
        intro a ha
        have := List.find?_eq_none.mp h1 a ha
        simpa using this
      simp [List.countP_append, hzero, hrow]

/-- C8: if every placement mode fails, create_registration returns the
all-modes-failed path with the store unchanged after attempting the whole
chain, and an identical retry attempts the whole chain again from scratch
instead of returning already-exists. -/
theorem all_modes_failed_no_post (cfg : Config) (gw : Gateway) (db : Database)
    (c m : Int) (mg : Option String) (now now2 : ℚ)
    (h1 : get_post db c m = none) (h2 : album_already_registered db c mg = false)
    (hfail : ∀ mo, attempt_mode cfg gw db c m mo = none) :
    create_registration cfg gw db c m mg now
        = ⟨.allModesFailed, db, get_fallback_chain cfg.registration_mode⟩
    ∧ create_registration cfg gw db c m mg now2
        = ⟨.allModesFailed, db, get_fallback_chain cfg.registration_mode⟩ := by
  have hgo := create_registration_go_all_fail cfg gw db c m mg now
    (get_fallback_chain cfg.registration_mode) (fun mo _ => hfail mo)
  have hgo2 := create_registration_go_all_fail cfg gw db c m mg now2
    (get_fallback_chain cfg.registration_mode) (fun mo _ => hfail mo)
  constructor
  · simpa [create_registration, h1, h2] using hgo
  · simpa [create_registration, h1, h2] using hgo2

/-- Witness for C5: with preferred mode EditOriginal, a gateway that rejects
edits and has no discussion mapping, and a successful channel reply, the
winning mode channel_reply_post is the one persisted. -/
theorem fallback_chain_deterministic_witness :
    ∃ p, get_post (create_registration ⟨-100, none, .editChannel⟩
        ⟨false, none, some 99, none, true⟩ ⟨[], []⟩ (-100) 50 none 0).db (-100) 50 = some p
      ∧ p.mode = RegistrationMode.channelReplyPost.value :=
  ((fallback_chain_deterministic ⟨-100, none, .editChannel⟩
      ⟨false, none, some 99, none, true⟩ ⟨[], []⟩ (-100) 50 none 0).2.2
    (by decide) (by decide)).2.2 RegistrationMode.channelReplyPost (by decide)

/-- Witness for C2: after one successful create at concrete inputs, a second
identical call returns the already-exists path unchanged, and one row is
stored for the key. -/
theorem create_registration_idempotent_witness :
    create_registration ⟨-100, none, .editChannel⟩ ⟨false, none, some 99, none, true⟩
        (create_registration ⟨-100, none, .editChannel⟩ ⟨false, none, some 99, none, true⟩
          ⟨[], []⟩ (-100) 50 none 0).db (-100) 50 none 1
      = ⟨.alreadyExists,
         (create_registration ⟨-100, none, .editChannel⟩ ⟨false, none, some 99, none, true⟩
           ⟨[], []⟩ (-100) 50 none 0).db, []⟩
    ∧ (create_registration ⟨-100, none, .editChannel⟩ ⟨false, none, some 99, none, true⟩
        ⟨[], []⟩ (-100) 50 none 0).db.posts.countP (post_key_matches (-100) 50) = 1 :=
  (create_registration_idempotent ⟨-100, none, .editChannel⟩
      ⟨false, none, some 99, none, true⟩ ⟨[], []⟩ (-100) 50 none 0 1).2.2
    RegistrationMode.channelReplyPost (by decide)

/-- Witness for C8: a gateway on which every mode fails leaves the empty store
unchanged across two create calls, both returning the all-modes-failed path. -/
theorem all_modes_failed_no_post_witness :
    create_registration ⟨-100, none, .editChannel⟩ ⟨false, none, none, none, true⟩
        ⟨[], []⟩ (-100) 50 none 0
      = ⟨.allModesFailed, ⟨[], []⟩, get_fallback_chain RegistrationMode.editChannel⟩
    ∧ create_registration ⟨-100, none, .editChannel⟩ ⟨false, none, none, none, true⟩
        ⟨[], []⟩ (-100) 50 none 1
      = ⟨.allModesFailed, ⟨[], []⟩, get_fallback_chain RegistrationMode.editChannel⟩ :=
  all_modes_failed_no_post ⟨-100, none, .editChannel⟩ ⟨false, none, none, none, true⟩
    ⟨[], []⟩ (-100) 50 none 0 1 (by decide) (by decide)
    (fun mo => by cases mo <;> decide)

/-! ### Changed-mind accounting (C6) -/

/-- upsert_vote inserts when no row for the key exists. -/
theorem upsert_vote_insert (posts : List PostRow) (votes : List VoteRow)
    (c m u : Int) (s : VoteStatus) (t : ℚ)
    (hbase : ∀ v ∈ votes, vote_key_matches c m u v = false) :
    upsert_vote ⟨posts, votes⟩ c m u s t =
      ⟨posts, votes ++ [{ channel_id := c, channel_message_id := m, user_id := u,
                          status := s, first_status := s, ever_joined := (s == .join),
                          updated_at := t }]⟩ := by
  have hfind : votes.find? (vote_key_matches c m u) = none :=
    find_none_of_keys_false _ _ hbase
  unfold upsert_vote
  simp only [hfind]

/-- upsert_vote updates in place the single row for the key sitting past a
block of rows that all miss the key. -/
theorem upsert_vote_step (posts : List PostRow) (votes : List VoteRow) (r : VoteRow)
    (c m u : Int) (s : VoteStatus) (t : ℚ)
    (hbase : ∀ v ∈ votes, vote_key_matches c m u v = false)
    (hr : vote_key_matches c m u r = true) :
    upsert_vote ⟨posts, votes ++ [r]⟩ c m u s t =
      ⟨posts, votes ++
        [{ r with status := s, ever_joined := r.ever_joined || (s == .join), updated_at := t }]⟩ := by
  have hfind : votes.find? (vote_key_matches c m u) = none :=
    find_none_of_keys_false _ _ hbase
  have hfind2 : (votes ++ [r]).find? (vote_key_matches c m u) = some r := by
    rw [find_append_of_none _ _ _ hfind]
    simp [List.find?, hr]
  unfold upsert_vote
  simp only [hfind2, List.map_append]
  rw [map_update_id _ _ votes hbase]
  simp [hr]

/-- C6: a user casting join, then maybe, then decline on a post with no other
votes yields final counts join 0, maybe 0, decline 1, and changed_mind exactly
1 (not 2): the counts reflect only the final status, and changed_mind counts
rows with ever_joined set whose current status is not join. -/
theorem changed_mind_accounting (db : Database) (c m u : Int) (t1 t2 t3 : ℚ)
    (h : ∀ v ∈ db.votes, ¬(v.channel_id = c ∧ v.channel_message_id = m)) :
    get_vote_counts
        (upsert_vote (upsert_vote (upsert_vote db c m u .join t1) c m u .maybe t2)
          c m u .decline t3) c m
      = ⟨0, 0, 1⟩
    ∧ get_changed_mind_count
        (upsert_vote (upsert_vote (upsert_vote db c m u .join t1) c m u .maybe t2)
          c m u .decline t3) c m = 1 := by
  obtain ⟨posts, votes⟩ := db
  simp only at h
  have hbase : ∀ v ∈ votes, vote_key_matches c m u v = false := by
    intro v hv
    cases hc : v.channel_id == c with
    | false => simp [vote_key_matches, hc]
    | true =>
      cases hm : v.channel_message_id == m with
      | false => simp [vote_key_matches, hc, hm]
      | true =>
        exact absurd ⟨by simpa using hc, by simpa using hm⟩ (h v hv)
  rw [upsert_vote_insert posts votes c m u .join t1 hbase]
  rw [upsert_vote_step posts votes _ c m u .maybe t2 hbase (by simp [vote_key_matches])]
  rw [upsert_vote_step posts votes _ c m u .decline t3 hbase (by simp [vote_key_matches])]
  have hfil : votes.filter (fun v => v.channel_id == c && v.channel_message_id == m) = [] := by
    rw [List.filter_eq_nil_iff]
    intro a ha
    simp only [Bool.and_eq_true, beq_iff_eq, not_and]
    intro h1 h2
    exact absurd ⟨h1, h2⟩ (h a ha)
  have hfil2 : votes.filter (fun v => v.channel_id == c && v.channel_message_id == m
      && v.ever_joined && v.status != .join) = [] := by
    rw [List.filter_eq_nil_iff]
    intro a ha
    have := hbase
    cases hc : a.channel_id == c with
    | false => simp [hc]
    | true =>
      cases hm : a.channel_message_id == m with
      | false => simp [hc, hm]
      | true =>
        exact absurd ⟨by simpa using hc, by simpa using hm⟩ (h a ha)
  constructor
  · simp [get_vote_counts, List.filter_append, hfil]
  · simp [get_changed_mind_count, List.filter_append, hfil2]

/-- Witness for C6 on the empty store: join, maybe, decline by one user gives
counts 0 / 0 / 1 and changed_mind 1. -/
theorem changed_mind_accounting_witness :
    get_vote_counts
        (upsert_vote (upsert_vote (upsert_vote ⟨[], []⟩ (-100) 50 7 .join 0)
          (-100) 50 7 .maybe 1) (-100) 50 7 .decline 2) (-100) 50
      = ⟨0, 0, 1⟩
    ∧ get_changed_mind_count
        (upsert_vote (upsert_vote (upsert_vote ⟨[], []⟩ (-100) 50 7 .join 0)
          (-100) 50 7 .maybe 1) (-100) 50 7 .decline 2) (-100) 50 = 1 :=
  changed_mind_accounting ⟨[], []⟩ (-100) 50 7 0 1 2 (by simp)

/-! ### Repair on render (C9) and store-level insert safety (C10) -/

/-- Reading back the key after update_post_registration: the stored row gains
the written card location. -/
theorem get_post_update_post_registration (db : Database) (c m rc rm : Int) :
    get_post (update_post_registration db c m rc rm) c m =
      (get_post db c m).map fun p =>
        { p with registration_chat_id := some rc, registration_message_id := some rm } := by
  unfold get_post update_post_registration
  exact find_map_key_update _ _
    (fun x hx => by simpa [post_key_matches] using hx) db.posts

/-- Reading back the key after update_discussion_message_id: the stored row
gains the written mapping. -/
theorem get_post_update_discussion (db : Database) (c m d : Int) :
    get_post (update_discussion_message_id db c m d) c m =
      (get_post db c m).map fun p => { p with discussion_message_id := some d } := by
  unfold get_post update_discussion_message_id
  exact find_map_key_update _ _
    (fun x hx => by simpa [post_key_matches] using hx) db.posts

/-- C9: for a Post whose card location columns are null, update_registration
repairs exactly the edit_channel mode — writing card location := source
location and proceeding to the gateway edit — while for discussion_thread and
channel_reply_post it returns the missing-location failure with the store
untouched. Source identifiers are nonzero (Telegram chat and message ids),
which the Python truthiness test on the repaired columns relies on. -/
theorem render_repair_by_mode (gw : Gateway) (db : Database) (c m : Int) (p : PostRow)
    (hp : get_post db c m = some p)
    (hchat : p.registration_chat_id = none)
    (hmsg : p.registration_message_id = none)
    (hc : c ≠ 0) (hm : m ≠ 0) :
    (p.mode = "edit_channel" →
      update_registration gw db c m =
        ((if gw.edit_card_ok then .updated else .gatewayFailure),
         update_post_registration db c m c m)
      ∧ get_post (update_post_registration db c m c m) c m =
          some { p with registration_chat_id := some c, registration_message_id := some m })
    ∧ (p.mode = "discussion_thread" → update_registration gw db c m = (.missingLocation, db))
    ∧ (p.mode = "channel_reply_post" → update_registration gw db c m = (.missingLocation, db)) := by
  have hre : get_post (update_post_registration db c m c m) c m =
      some { p with registration_chat_id := some c, registration_message_id := some m } := by
    rw [get_post_update_post_registration, hp]
    rfl
  refine ⟨?_, ?_, ?_⟩
  · intro hmode
    refine ⟨?_, hre⟩
    unfold update_registration
    rw [hp]
    simp only [hchat, hmsg, isTruthy, Bool.not_false, Bool.true_or]
    rw [hmode]
    unfold repair_post_registration
    have hbeq : ("edit_channel" == "edit_channel") = true := by decide
    simp only [hbeq, if_pos rfl, if_true]
    rw [hre]
    have htc : isTruthy (some c) = true := by simp [isTruthy, hc]
    have htm : isTruthy (some m) = true := by simp [isTruthy, hm]
    simp only [htc, htm, hc, hm]
    cases gw.edit_card_ok <;> simp <;> exact ⟨hc, hm⟩
  · intro hmode
    unfold update_registration
    rw [hp]
    simp only [hchat, hmsg, isTruthy, Bool.not_false, Bool.true_or]
    rw [hmode]
    unfold repair_post_registration
    have hbeq : ("discussion_thread" == "edit_channel") = false := by decide
    have hbeq2 : ("discussion_thread" == "discussion_thread") = true := by decide
    simp [hbeq, hbeq2]
  · intro hmode
    unfold update_registration
    rw [hp]
    simp only [hchat, hmsg, isTruthy, Bool.not_false, Bool.true_or]
    rw [hmode]
    unfold repair_post_registration
    have hbeq : ("channel_reply_post" == "edit_channel") = false := by decide
    have hbeq2 : ("channel_reply_post" == "discussion_thread") = false := by decide
    have hbeq3 : ("channel_reply_post" == "channel_reply_post") = true := by decide
    simp [hbeq, hbeq2, hbeq3]

/-- Witness for C9: a stored edit_channel Post with null card location is
repaired to card location = source location and the render proceeds to the
gateway edit; a discussion_thread Post fails with the missing-location path. -/
theorem render_repair_by_mode_witness :
    (update_registration ⟨false, none, none, none, true⟩
        ⟨[{ channel_id := -100, channel_message_id := 50, mode := "edit_channel",
            registration_chat_id := none, registration_message_id := none,
            voters_message_id := none, discussion_message_id := none,
            media_group_id := none, created_at := 0 }], []⟩ (-100) 50
      = (.updated, update_post_registration
          ⟨[{ channel_id := -100, channel_message_id := 50, mode := "edit_channel",
              registration_chat_id := none, registration_message_id := none,
              voters_message_id := none, discussion_message_id := none,
              media_group_id := none, created_at := 0 }], []⟩ (-100) 50 (-100) 50)
      ∧ get_post (update_post_registration
          ⟨[{ channel_id := -100, channel_message_id := 50, mode := "edit_channel",
              registration_chat_id := none, registration_message_id := none,
              voters_message_id := none, discussion_message_id := none,
              media_group_id := none, created_at := 0 }], []⟩ (-100) 50 (-100) 50) (-100) 50
        = some { channel_id := -100, channel_message_id := 50, mode := "edit_channel",
                 registration_chat_id := some (-100), registration_message_id := some 50,
                 voters_message_id := none, discussion_message_id := none,
                 media_group_id := none, created_at := 0 })
    ∧ update_registration ⟨false, none, none, none, true⟩
        ⟨[{ channel_id := -100, channel_message_id := 50, mode := "discussion_thread",
            registration_chat_id := none, registration_message_id := none,
            voters_message_id := none, discussion_message_id := none,
            media_group_id := none, created_at := 0 }], []⟩ (-100) 50
      = (.missingLocation,
         ⟨[{ channel_id := -100, channel_message_id := 50, mode := "discussion_thread",
             registration_chat_id := none, registration_message_id := none,
             voters_message_id := none, discussion_message_id := none,
             media_group_id := none, created_at := 0 }], []⟩) :=
  ⟨(render_repair_by_mode ⟨false, none, none, none, true⟩
      ⟨[{ channel_id := -100, channel_message_id := 50, mode := "edit_channel",
          registration_chat_id := none, registration_message_id := none,
          voters_message_id := none, discussion_message_id := none,
          media_group_id := none, created_at := 0 }], []⟩ (-100) 50
      { channel_id := -100, channel_message_id := 50, mode := "edit_channel",
        registration_chat_id := none, registration_message_id := none,
        voters_message_id := none, discussion_message_id := none,
        media_group_id := none, created_at := 0 }
      (by decide) rfl rfl (by decide) (by decide)).1 rfl,
   ((render_repair_by_mode ⟨false, none, none, none, true⟩
      ⟨[{ channel_id := -100, channel_message_id := 50, mode := "discussion_thread",
          registration_chat_id := none, registration_message_id := none,
          voters_message_id := none, discussion_message_id := none,
          media_group_id := none, created_at := 0 }], []⟩ (-100) 50
      { channel_id := -100, channel_message_id := 50, mode := "discussion_thread",
        registration_chat_id := none, registration_message_id := none,
        voters_message_id := none, discussion_message_id := none,
        media_group_id := none, created_at := 0 }
      (by decide) rfl rfl (by decide) (by decide)).2.1 rfl)⟩

/-- The caught-IntegrityError branch of create_post, for any store in which a
row for the key is present. -/
theorem create_post_already (db : Database) (c m : Int) (mode : String)
    (rc rm : Option Int) (mg : Option String) (now : ℚ)
    (h : (db.posts.find? (post_key_matches c m)).isSome = true) :
    create_post db c m mode rc rm mg now = (false, db) := by
  simp only [create_post, h, if_true]

/-- C10: at the store level create_post never overwrites: with a row already
present for (channel_id, channel_message_id) the insert reports False and the
store — including the first row — is unchanged; and a successful insert
followed by a second insert for the same key leaves exactly one row for the
key. -/
theorem create_post_unique_key (db : Database) (c m : Int)
    (mode mode2 : String) (rc rm rc2 rm2 : Option Int) (mg mg2 : Option String)
    (now now2 : ℚ) :
    (∀ p, get_post db c m = some p → create_post db c m mode rc rm mg now = (false, db))
    ∧ (get_post db c m = none →
        (create_post db c m mode rc rm mg now).1 = true
        ∧ create_post (create_post db c m mode rc rm mg now).2 c m mode2 rc2 rm2 mg2 now2
            = (false, (create_post db c m mode rc rm mg now).2)
        ∧ (create_post db c m mode rc rm mg now).2.posts.countP (post_key_matches c m) = 1) := by
  constructor
  · intro p hp
    have hs : (db.posts.find? (post_key_matches c m)).isSome = true := by
      unfold get_post at hp
      simp [hp]
    simp [create_post, hs]
  · intro h
    have hn : (db.posts.find? (post_key_matches c m)).isSome = false := by
      unfold get_post at h
      simp [h]
    have hrow : post_key_matches c m
        ({ channel_id := c, channel_message_id := m, mode := mode,
           registration_chat_id := rc, registration_message_id := rm,
           voters_message_id := none, discussion_message_id := none,
           media_group_id := mg, created_at := now } : PostRow) = true := by
      simp [post_key_matches]
    have hdb1 : (create_post db c m mode rc rm mg now).2 =
        { db with posts := db.posts ++ [{
            channel_id := c, channel_message_id := m, mode := mode,
            registration_chat_id := rc, registration_message_id := rm,
            voters_message_id := none, discussion_message_id := none,
            media_group_id := mg, created_at := now }] } := by
      simp [create_post, hn]
    refine ⟨by simp [create_post, hn], ?_, ?_⟩
    · have hp1 : get_post (create_post db c m mode rc rm mg now).2 c m ≠ none := by
        rw [hdb1, get_post_insert db c m _ h hrow]
        simp
      obtain ⟨q, hq⟩ : ∃ q, get_post (create_post db c m mode rc rm mg now).2 c m = some q := by
        cases hg : get_post (create_post db c m mode rc rm mg now).2 c m
        · exact absurd hg hp1
        · exact ⟨_, rfl⟩
      have hs : ((create_post db c m mode rc rm mg now).2.posts.find?
          (post_key_matches c m)).isSome = true := by
        unfold get_post at hq
        simp [hq]
      exact create_post_already _ c m mode2 rc2 rm2 mg2 now2 hs
    · rw [hdb1]
      have hzero : db.posts.countP (post_key_matches c m) = 0 := by
        rw [List.countP_eq_zero]
        intro a ha
        have := List.find?_eq_none.mp h a ha
        simpa using this
      simp [List.countP_append, hzero, hrow]

/-- Witness for C10 on the empty store: the first insert succeeds, the second
insert for the same key reports False and changes nothing, one row remains. -/
theorem create_post_unique_key_witness :
    (create_post ⟨[], []⟩ (-100) 50 "edit_channel" none none none 0).1 = true
    ∧ create_post (create_post ⟨[], []⟩ (-100) 50 "edit_channel" none none none 0).2
        (-100) 50 "channel_reply_post" (some (-100)) (some 99) none 1
        = (false, (create_post ⟨[], []⟩ (-100) 50 "edit_channel" none none none 0).2)
    ∧ (create_post ⟨[], []⟩ (-100) 50 "edit_channel" none none none 0).2.posts.countP
        (post_key_matches (-100) 50) = 1 :=
  (create_post_unique_key ⟨[], []⟩ (-100) 50 "edit_channel" "channel_reply_post"
    none none (some (-100)) (some 99) none none 0 1).2 rfl

/-! ### Pending discussion_thread posts and the deferred completion (C3, C7) -/

/-- C3: with preferred mode discussion_thread, the create entry point records a
Pending Post — a row with mode discussion_thread and null card location —
attempting no placement mode at all instead of falling through the chain; and
complete_discussion_registration, which re-attempts the discussion thread
only, on success fills in the card location through an UPDATE that preserves
the number of Post rows (never a second insert). -/
theorem pending_post_discussion_thread (cfg : Config) (gw : Gateway) (db : Database)
    (c m gid dmid sid : Int) (mg : Option String) (now : ℚ) (p : PostRow) :
    (cfg.registration_mode = .discussionThread →
      album_already_registered db c mg = false →
      get_post db c m = none →
      handle_channel_post cfg gw db c m mg now =
        ({ db with posts := db.posts ++ [{
            channel_id := c, channel_message_id := m, mode := "discussion_thread",
            registration_chat_id := none, registration_message_id := none,
            voters_message_id := none, discussion_message_id := none,
            media_group_id := mg, created_at := now }] }, [])
      ∧ get_post (handle_channel_post cfg gw db c m mg now).1 c m =
          some { channel_id := c, channel_message_id := m, mode := "discussion_thread",
                 registration_chat_id := none, registration_message_id := none,
                 voters_message_id := none, discussion_message_id := none,
                 media_group_id := mg, created_at := now })
    ∧ (cfg.discussion_group_id = some gid → gid ≠ 0 →
      get_post db c m = some p → p.discussion_message_id = some dmid → dmid ≠ 0 →
      gw.send_discussion_reply = some sid →
      complete_discussion_registration cfg gw db c m =
        (true, update_post_registration db c m gid sid)
      ∧ (update_post_registration db c m gid sid).posts.length = db.posts.length
      ∧ get_post (update_post_registration db c m gid sid) c m =
          some { p with registration_chat_id := some gid,
                        registration_message_id := some sid }) := by
  constructor
  · intro hmode halbum hpre
    have hn : (db.posts.find? (post_key_matches c m)).isSome = false := by
      unfold get_post at hpre
      simp [hpre]
    have hhandle : handle_channel_post cfg gw db c m mg now =
        ({ db with posts := db.posts ++ [{
            channel_id := c, channel_message_id := m, mode := "discussion_thread",
            registration_chat_id := none, registration_message_id := none,
            voters_message_id := none, discussion_message_id := none,
            media_group_id := mg, created_at := now }] }, []) := by
      unfold handle_channel_post
      simp [halbum, hmode, create_post, hn]
    refine ⟨hhandle, ?_⟩
    rw [hhandle]
    exact get_post_insert db c m _ hpre (by simp [post_key_matches])
  · intro hgid hgidnz hp hdmid hdmidnz hsend
    have htruthy : isTruthy cfg.discussion_group_id = true := by
      rw [hgid]
      simp [isTruthy, hgidnz]
    have hbind : (get_post db c m).bind (fun q => q.discussion_message_id) = some dmid := by
      rw [hp]
      simpa using hdmid
    have htruthy2 :
        isTruthy ((get_post db c m).bind (fun q => q.discussion_message_id)) = true := by
      rw [hbind]
      simp [isTruthy, hdmidnz]
    have htruthy3 : isTruthy (some gid) = true := by
      simp [isTruthy, hgidnz]
    have htry : try_discussion_thread cfg gw db c m = some (gid, sid) := by
      unfold try_discussion_thread
      simp [htruthy, hgid, htruthy2, htruthy3, hsend]
    refine ⟨?_, ?_, ?_⟩
    · unfold complete_discussion_registration
      rw [htry]
    · unfold update_post_registration
      simp
    · rw [get_post_update_post_registration, hp]
      rfl

/-- Witness for C3: on the empty store the handler records the pending row and
attempts nothing; with the mapping 888 present and the gateway replying with
message 555, completion fills the card location in place. -/
theorem pending_post_discussion_thread_witness :
    (handle_channel_post ⟨-100, some (-200), .discussionThread⟩
        ⟨false, some 555, none, none, true⟩ ⟨[], []⟩ (-100) 50 none 0 =
      (⟨[{ channel_id := -100, channel_message_id := 50, mode := "discussion_thread",
           registration_chat_id := none, registration_message_id := none,
           voters_message_id := none, discussion_message_id := none,
           media_group_id := none, created_at := 0 }], []⟩, [])
      ∧ get_post (handle_channel_post ⟨-100, some (-200), .discussionThread⟩
          ⟨false, some 555, none, none, true⟩ ⟨[], []⟩ (-100) 50 none 0).1 (-100) 50 =
          some { channel_id := -100, channel_message_id := 50, mode := "discussion_thread",
                 registration_chat_id := none, registration_message_id := none,
                 voters_message_id := none, discussion_message_id := none,
                 media_group_id := none, created_at := 0 })
    ∧ (complete_discussion_registration ⟨-100, some (-200), .discussionThread⟩
        ⟨false, some 555, none, none, true⟩
        ⟨[{ channel_id := -100, channel_message_id := 50, mode := "discussion_thread",
            registration_chat_id := none, registration_message_id := none,
            voters_message_id := none, discussion_message_id := some 888,
            media_group_id := none, created_at := 0 }], []⟩ (-100) 50 =
        (true, update_post_registration
          ⟨[{ channel_id := -100, channel_message_id := 50, mode := "discussion_thread",
              registration_chat_id := none, registration_message_id := none,
              voters_message_id := none, discussion_message_id := some 888,
              media_group_id := none, created_at := 0 }], []⟩ (-100) 50 (-200) 555)
      ∧ (update_post_registration
          ⟨[{ channel_id := -100, channel_message_id := 50, mode := "discussion_thread",
              registration_chat_id := none, registration_message_id := none,
              voters_message_id := none, discussion_message_id := some 888,
              media_group_id := none, created_at := 0 }], []⟩ (-100) 50 (-200) 555).posts.length
          = 1
      ∧ get_post (update_post_registration
          ⟨[{ channel_id := -100, channel_message_id := 50, mode := "discussion_thread",
              registration_chat_id := none, registration_message_id := none,
              voters_message_id := none, discussion_message_id := some 888,
              media_group_id := none, created_at := 0 }], []⟩ (-100) 50 (-200) 555) (-100) 50
          = some { channel_id := -100, channel_message_id := 50, mode := "discussion_thread",
                   registration_chat_id := some (-200), registration_message_id := some 555,
                   voters_message_id := none, discussion_message_id := some 888,
                   media_group_id := none, created_at := 0 }) :=
  ⟨(pending_post_discussion_thread ⟨-100, some (-200), .discussionThread⟩
      ⟨false, some 555, none, none, true⟩ ⟨[], []⟩ (-100) 50 (-200) 888 555 none 0
      { channel_id := -100, channel_message_id := 50, mode := "discussion_thread",
        registration_chat_id := none, registration_message_id := none,
        voters_message_id := none, discussion_message_id := some 888,
        media_group_id := none, created_at := 0 }).1 rfl (by decide) rfl,
   (pending_post_discussion_thread ⟨-100, some (-200), .discussionThread⟩
      ⟨false, some 555, none, none, true⟩
      ⟨[{ channel_id := -100, channel_message_id := 50, mode := "discussion_thread",
          registration_chat_id := none, registration_message_id := none,
          voters_message_id := none, discussion_message_id := some 888,
          media_group_id := none, created_at := 0 }], []⟩ (-100) 50 (-200) 888 555 none 0
      { channel_id := -100, channel_message_id := 50, mode := "discussion_thread",
        registration_chat_id := none, registration_message_id := none,
        voters_message_id := none, discussion_message_id := some 888,
        media_group_id := none, created_at := 0 }).2
     rfl (by decide) (by decide) rfl (by decide) rfl⟩

/-- Counterexample for C7: a discussion-mapping event arriving before any Post
exists for its (channel_id, source_message_id) leaves the store exactly empty:
the mapping UPDATE touches no row, so nothing keyed by the source identity is
stored for a later create or completion to consult. -/
theorem mapping_before_post_counterexample :
    handle_discussion_message ⟨-100, some (-200), .discussionThread⟩
        ⟨false, some 555, none, none, true⟩ ⟨[], []⟩ (some (-100)) (some 50) 777
      = ⟨[], []⟩
    ∧ get_post (handle_discussion_message ⟨-100, some (-200), .discussionThread⟩
        ⟨false, some 555, none, none, true⟩ ⟨[], []⟩ (some (-100)) (some 50) 777) (-100) 50
      = none := by
  constructor <;> decide

/-- C7 as amended: the store call backing the mapping capture is an UPDATE, so
the mapping is recorded only when a Post row for the source identity already
exists (then a later create or completion can consult it); when no Post row
exists yet, the event leaves the store unchanged and the mapping is lost. -/
theorem mapping_update_requires_post (db : Database) (c m d : Int) :
    (get_post db c m = none → update_discussion_message_id db c m d = db)
    ∧ (∀ p, get_post db c m = some p →
        get_post (update_discussion_message_id db c m d) c m =
          some { p with discussion_message_id := some d }) := by
  constructor
  · intro h
    unfold get_post at h
    unfold update_discussion_message_id
    have hall : ∀ x ∈ db.posts, post_key_matches c m x = false := by
      intro x hx
      have := List.find?_eq_none.mp h x hx
      simpa using this
    rw [map_update_id _ _ db.posts hall]
  · intro p hp
    rw [get_post_update_discussion, hp]
    rfl

/-- Witness for the amended C7: on the empty store the mapping write is a
no-op; on a store holding the pending row the mapping is recorded. -/
theorem mapping_update_requires_post_witness :
    update_discussion_message_id ⟨[], []⟩ (-100) 50 777 = ⟨[], []⟩
    ∧ get_post (update_discussion_message_id
        ⟨[{ channel_id := -100, channel_message_id := 50, mode := "discussion_thread",
            registration_chat_id := none, registration_message_id := none,
            voters_message_id := none, discussion_message_id := none,
            media_group_id := none, created_at := 0 }], []⟩ (-100) 50 777) (-100) 50
      = some { channel_id := -100, channel_message_id := 50, mode := "discussion_thread",
               registration_chat_id := none, registration_message_id := none,
               voters_message_id := none, discussion_message_id := some 777,
               media_group_id := none, created_at := 0 } :=
  ⟨(mapping_update_requires_post ⟨[], []⟩ (-100) 50 777).1 rfl,
   (mapping_update_requires_post
      ⟨[{ channel_id := -100, channel_message_id := 50, mode := "discussion_thread",
          registration_chat_id := none, registration_message_id := none,
          voters_message_id := none, discussion_message_id := none,
          media_group_id := none, created_at := 0 }], []⟩ (-100) 50 777).2
     { channel_id := -100, channel_message_id := 50, mode := "discussion_thread",
       registration_chat_id := none, registration_message_id := none,
       voters_message_id := none, discussion_message_id := none,
       media_group_id := none, created_at := 0 } (by decide)⟩

end ChannelRides
